import Mathlib

/-!
Shallow embedding of the todo-list component in
`src/src/components/main/Main.tsx` (the priority-capable variant, the one
all claim line ranges point into).  The component keeps an in-memory list
of todos, mirrors it into browser local storage under the key `"todos"`,
loads from a remote HTTP endpoint with a local-storage fallback, and
derives a filtered, priority-sorted view.

Modelling conventions:
* React state is an explicit `AppState` record; each handler is a pure
  function from the previous state (plus the outcome of any network call,
  which is an input to the model) to the next state.
* Local storage holds a JSON string.  We model the *parsed* content of
  that string: `Stored.absent` is a missing key (`getItem` returns
  `null`), `Stored.malformed` is a present value on which `JSON.parse`
  throws, `Stored.nonArray` is a parsable value that is not an array, and
  `Stored.entries xs` is a parsed array whose elements are either bare
  strings or task-shaped objects, exactly the two shapes the fallback
  code dispatches on with `typeof item === 'string'`.
* Network calls are modelled by their outcome: the distinct failure modes
  (fetch rejecting, `!response.ok`, `response.json()` throwing) all land
  in the same `catch` block in the source, and a successful response is
  its parsed JSON body.
-/

namespace TodoApp

/-- The source union `type Priority = "low" | "medium" | "high"` (Main.tsx line 4). -/
inductive Priority where
  | low
  | medium
  | high
deriving DecidableEq, Repr

/-- The `Todo` record type (Main.tsx lines 6-11). -/
structure Todo where
  id : Int
  title : String
  completed : Bool
  priority : Priority
deriving DecidableEq, Repr

/-- The three values of the `filter` state (Main.tsx line 22). -/
inductive ViewFilter where
  | all
  | completed
  | active
deriving DecidableEq, Repr

/-- One element of the parsed local-storage array: the fallback reader
tolerates bare strings (legacy shape) and task-shaped objects whose
`priority` field may be absent (Main.tsx lines 49-63). -/
inductive CacheEntry where
  | str (title : String)
  | record (id : Int) (title : String) (completed : Bool) (priority : Option Priority)
deriving DecidableEq, Repr

/-- The observable content of local storage under the key `"todos"`. -/
inductive Stored where
  | absent
  | malformed
  | nonArray
  | entries (xs : List CacheEntry)
deriving DecidableEq, Repr

/-- The component state touched by the claims: the in-memory list, the
warning string (`error` state), and the local-storage content. -/
structure AppState where
  todos : List Todo
  error : Option String
  cache : Stored
deriving DecidableEq, Repr

/-- The shape of one element of the server response's `data` array on a
successful GET: `{id, title, completed, [priority]}`. -/
structure ServerTodo where
  id : Int
  title : String
  completed : Bool
  priority : Option Priority
deriving DecidableEq, Repr

/-- The parsed body of a successful GET: the `data` field either holds an
array, or is absent/null/falsy (`data.data || []` takes the `[]` branch). -/
inductive GetData where
  | missing
  | arr (xs : List ServerTodo)
deriving DecidableEq, Repr

/-- Outcome of the GET in `fetchTodos`: every failure mode (fetch
rejecting, non-2xx status, body that is not JSON) reaches the same
`catch` block. -/
inductive FetchOutcome where
  | networkError
  | httpError
  | badJson
  | ok (data : GetData)
deriving DecidableEq, Repr

/-- Whether the GET succeeded (reached the code after `response.json()`). -/
def FetchOutcome.isOk : FetchOutcome → Bool
  | .ok _ => true
  | _ => false

/-- The shape of `data.data` in a successful POST response:
`{id, title, completed}` (no priority field is expected back). -/
structure CreatedTodo where
  id : Int
  title : String
  completed : Bool
deriving DecidableEq, Repr

/-- Outcome of the POST in `addTodo`: failure covers fetch rejecting,
non-2xx status, and a non-JSON body — all reach the same `catch`. -/
inductive PostOutcome where
  | failure
  | ok (data : CreatedTodo)
deriving DecidableEq, Repr

/-- The rank table `priorityOrder` from the sort comparator (Main.tsx line 162):
`{ high: 3, medium: 2, low: 1 }`. -/
def priorityOrder : Priority → Nat
  | .high => 3
  | .medium => 2
  | .low => 1

/-- The warning set when the GET fails (Main.tsx line 42). -/
def fetchErrorMsg : String := "Failed to load todos. Using local storage as fallback."

/-- The warning set when the POST fails (Main.tsx line 112). -/
def addErrorMsg : String := "Failed to add todo. Added to local storage only."

/-- Normalisation applied to each element of a parsed cache array in the
fetch fallback (Main.tsx lines 49-63): a bare string at index `i` becomes
`{id: i+1, title, completed: false, priority: "medium"}`; an object is
spread through with `priority: item.priority || "medium"`. -/
def normalizeCacheEntry (index : Nat) : CacheEntry → Todo
  | .str title => { id := (index : Int) + 1, title := title, completed := false, priority := .medium }
  | .record id title completed priority =>
      { id := id, title := title, completed := completed, priority := priority.getD .medium }

/-- Normalisation applied to each element of the server `data` array on a
successful GET (Main.tsx lines 34-37): `priority: todo.priority || "medium"`. -/
def normalizeServerTodo (t : ServerTodo) : Todo :=
  { id := t.id, title := t.title, completed := t.completed, priority := t.priority.getD .medium }

/-- The `JSON.stringify` image of the todo list as written to local storage by every
mutation: a full object array, each object carrying its priority. -/
def writeCache (todos : List Todo) : Stored :=
  .entries (todos.map fun t => .record t.id t.title t.completed (some t.priority))

/-- Plain deserialisation of one stored entry back to a todo (what
`JSON.parse` yields on an element written by `writeCache`, read without
any normalisation): only a full object with its priority present
deserialises. -/
def decodeEntry : CacheEntry → Option Todo
  | .record id title completed (some p) =>
      some { id := id, title := title, completed := completed, priority := p }
  | _ => none

/-- Plain deserialisation of a parsed array of cache entries. -/
def decodeEntries : List CacheEntry → Option (List Todo)
  | [] => some []
  | e :: es =>
      match decodeEntry e, decodeEntries es with
      | some t, some ts => some (t :: ts)
      | _, _ => none

/-- Plain deserialisation of the stored value. -/
def decodeStored : Stored → Option (List Todo)
  | .entries xs => decodeEntries xs
  | _ => none

/-- Loader `fetchTodos` (Main.tsx lines 25-73).  On success the server array is
normalised and replaces the list, the error is cleared and the cache is
not touched.  On failure the error is set and the list falls back to the
cache: absent cache leaves the list alone (`if (localTodos)` guard),
a malformed cache hits the inner `catch` (`setTodos([])`), a parsable
non-array yields `[]` (the `Array.isArray` ternary), and a parsed array
is normalised element-wise with its index. -/
def fetchTodos (s : AppState) (outcome : FetchOutcome) : AppState :=
  match outcome with
  | .ok data =>
      let xs := match data with
        | .missing => []
        | .arr xs => xs
      { s with todos := xs.map normalizeServerTodo, error := none }
  | _ =>
      let s := { s with error := some fetchErrorMsg }
      match s.cache with
      | .absent => s
      | .malformed => { s with todos := [] }
      | .nonArray => { s with todos := [] }
      | .entries xs =>
          { s with todos := xs.enum.map fun p => normalizeCacheEntry p.1 p.2 }

/-- One lowercase hexadecimal digit. -/
def hexDigit (n : Nat) : Char :=
  if n < 10 then Char.ofNat (48 + n) else Char.ofNat (87 + n)

/-- How `JSON.stringify` escapes one character inside a string literal:
quote, backslash and the named control characters get two-character
escapes, the remaining C0 controls get a `\u00XX` escape, everything
else passes through. -/
def escapeJsonChar (c : Char) : List Char :=
  if c = '"' then ['\\', '"']
  else if c = '\\' then ['\\', '\\']
  else if c = '\u0008' then ['\\', 'b']
  else if c = '\t' then ['\\', 't']
  else if c = '\n' then ['\\', 'n']
  else if c = '\u000C' then ['\\', 'f']
  else if c = '\r' then ['\\', 'r']
  else if c.toNat < 0x20 then
    ['\\', 'u', '0', '0', hexDigit (c.toNat / 16), hexDigit (c.toNat % 16)]
  else [c]

/-- The `JSON.stringify` rendering of a string value, quotes included. -/
def stringifyString (s : String) : String :=
  "\"" ++ String.mk ((s.toList.map escapeJsonChar).flatten) ++ "\""

/-- The `JSON.stringify` rendering of the object `\x7b task: t \x7d`. -/
def stringifyTaskObj (t : String) : String :=
  "\x7b\"task\":" ++ stringifyString t ++ "\x7d"

/-- The request body built by `addTodo` (Main.tsx lines 78-86) is
`JSON.stringify(\x7b task \x7d)` — only the title is sent; the `priority`
argument is not part of the transmitted data. -/
def addTodoRequestBody (task : String) (priority : Priority) : String :=
  let _ := priority
  stringifyTaskObj task

/-- The full POST request `addTodo` issues: method, content-type header
and body (Main.tsx lines 81-87). -/
structure Request where
  rmethod : String
  contentType : String
  body : String
deriving DecidableEq, Repr

/-- The request sent by `addTodo task priority`. -/
def addTodoRequest (task : String) (priority : Priority) : Request :=
  { rmethod := "POST", contentType := "application/json", body := addTodoRequestBody task priority }

/-- Mutator `addTodo` (Main.tsx lines 76-129).  Success: the returned record is
merged with the client-side priority, appended, and the whole new list is
written to the cache; returns `true`.  Failure: a synthetic record
`{id: todos.length + 1, title: task, completed: false, priority}` is
appended, the cache written identically, the warning set; returns
`false`.  The `catch` swallows every exception, so the model is total. -/
def addTodo (s : AppState) (task : String) (priority : Priority) (outcome : PostOutcome) :
    Bool × AppState :=
  match outcome with
  | .ok data =>
      let newTodo : Todo :=
        { id := data.id, title := data.title, completed := data.completed, priority := priority }
      let updated := s.todos ++ [newTodo]
      (true, { s with todos := updated, cache := writeCache updated })
  | .failure =>
      let newTodo : Todo :=
        { id := (s.todos.length : Int) + 1, title := task, completed := false, priority := priority }
      let updated := s.todos ++ [newTodo]
      (false, { s with todos := updated, cache := writeCache updated, error := some addErrorMsg })

/-- Mutator `toggleTodoCompletion` (Main.tsx lines 131-137): flip `completed` on
every todo whose id matches, write the result wholesale to the cache. -/
def toggleTodoCompletion (s : AppState) (id : Int) : AppState :=
  let updatedTodos := s.todos.map fun todo =>
    if todo.id = id then { todo with completed := !todo.completed } else todo
  { s with todos := updatedTodos, cache := writeCache updatedTodos }

/-- Mutator `deleteTodo` (Main.tsx lines 139-143): drop every todo whose id
matches, write the result wholesale to the cache. -/
def deleteTodo (s : AppState) (id : Int) : AppState :=
  let updatedTodos := s.todos.filter fun todo => todo.id ≠ id
  { s with todos := updatedTodos, cache := writeCache updatedTodos }

/-- The whitespace class recognised by JavaScript's `String.prototype.trim`
(WhiteSpace and LineTerminator code points). -/
def isJsWhitespace (c : Char) : Bool :=
  c = ' ' || c = '\t' || c = '\n' || c = '\u000B' || c = '\u000C' || c = '\r' ||
  c = '\u00A0' || c = '\u1680' || ('\u2000' ≤ c && c ≤ '\u200A') ||
  c = '\u2028' || c = '\u2029' || c = '\u202F' || c = '\u205F' ||
  c = '\u3000' || c = '\uFEFF'

/-- JavaScript `input.trim()`. -/
def jsTrim (s : String) : String :=
  .mk (((s.toList.dropWhile isJsWhitespace).reverse.dropWhile isJsWhitespace).reverse)

/-- Handler `handleSubmit` (Main.tsx lines 145-151), with the form-event plumbing
stripped: if `input.trim()` is falsy (empty) nothing happens; otherwise
`addTodo(input, priority)` runs.  The first component records the title
actually handed to `addTodo` (`none` when no add occurred). -/
def handleSubmit (s : AppState) (input : String) (priority : Priority)
    (outcome : PostOutcome) : Option String × AppState :=
  if jsTrim input = "" then (none, s)
  else (some input, (addTodo s input priority outcome).2)

/-- Presenter `filteredTodos` (Main.tsx lines 153-158). -/
def filteredTodos (filter : ViewFilter) (todos : List Todo) : List Todo :=
  todos.filter fun todo =>
    match filter with
    | .all => true
    | .completed => todo.completed
    | .active => !todo.completed

/-- The comparator-induced order of the priority sort (Main.tsx lines
161-164): the JS comparator `priorityOrder[b.priority] - priorityOrder[a.priority]`
puts `a` no later than `b` exactly when it is `≤ 0`. -/
def todoLe (a b : Todo) : Bool :=
  decide (priorityOrder b.priority ≤ priorityOrder a.priority)

/-- Presenter `sortedTodos` (Main.tsx lines 161-164): `[...filteredTodos].sort(cmp)`.
ECMAScript's `Array.prototype.sort` is a stable sort consistent with the
comparator, which a stable merge sort over `todoLe` embeds. -/
def sortedTodos (filter : ViewFilter) (todos : List Todo) : List Todo :=
  (filteredTodos filter todos).mergeSort todoLe

/-- The state at mount: `useState` initialisers `todos = []`, `error = null`
(Main.tsx lines 17-21); the storage content is whatever the browser holds. -/
def mountState (cache : Stored) : AppState :=
  { todos := [], error := none, cache := cache }

end TodoApp

/-! Helper lemmas shared by the claim theorems. -/

namespace TodoApp

/-- The comparator order `todoLe` is transitive. -/
theorem todoLe_trans (a b c : Todo) (h₁ : todoLe a b = true) (h₂ : todoLe b c = true) :
    todoLe a c = true := by
  simp only [todoLe, decide_eq_true_eq] at h₁ h₂ ⊢
  exact le_trans h₂ h₁

/-- The comparator order `todoLe` is total. -/
theorem todoLe_total (a b : Todo) : (todoLe a b || todoLe b a) = true := by
  simp only [todoLe, Bool.or_eq_true, decide_eq_true_eq]
  exact Nat.le_total _ _

/-- A cache written by a mutation deserialises back to exactly the list
that was written. -/
theorem decodeStored_writeCache (l : List Todo) : decodeStored (writeCache l) = some l := by
  induction l with
  | nil => rfl
  | cons t ts ih =>
      simp only [writeCache, decodeStored, List.map_cons, decodeEntries, decodeEntry] at ih ⊢
      simp [ih]

end TodoApp

namespace TodoApp

/-- C1: for every failed remote read with a parsable array cached under
the key `"todos"`, the in-memory list becomes the cache entries
normalised element-wise: a bare string at position `i` becomes
`{id: i+1, title, completed: false, priority: "medium"}` and an object
entry is passed through unchanged (its `id` in particular) except that a
missing priority defaults to `"medium"`. -/
theorem c1_fetch_failure_normalizes_cache (s : AppState) (o : FetchOutcome)
    (xs : List CacheEntry) (hfail : o.isOk = false) (hc : s.cache = .entries xs) :
    (fetchTodos s o).todos =
      xs.enum.map fun p =>
        match p.2 with
        | .str t => { id := (p.1 : Int) + 1, title := t, completed := false, priority := .medium }
        | .record i t c pr => { id := i, title := t, completed := c, priority := pr.getD .medium } := by
  have hmap :
      (xs.enum.map fun p => normalizeCacheEntry p.1 p.2) =
        xs.enum.map fun p =>
          match p.2 with
          | .str t => { id := (p.1 : Int) + 1, title := t, completed := false, priority := .medium }
          | .record i t c pr =>
              ({ id := i, title := t, completed := c, priority := pr.getD .medium } : Todo) := by
    apply List.map_congr_left
    intro a _
    obtain ⟨i, e⟩ := a
    cases e <;> rfl
  cases o with
  | ok d => simp [FetchOutcome.isOk] at hfail
  | networkError => rw [← hmap]; simp [fetchTodos, hc]
  | httpError => rw [← hmap]; simp [fetchTodos, hc]
  | badJson => rw [← hmap]; simp [fetchTodos, hc]

/-- Closed instance of `c1_fetch_failure_normalizes_cache`: a network
error with a two-entry cache (one legacy string, one object with id 7 and
no priority). -/
theorem c1_witness :
    FetchOutcome.networkError.isOk = false ∧
    (mountState (Stored.entries [CacheEntry.str "a", CacheEntry.record 7 "b" true none])).cache
      = Stored.entries [CacheEntry.str "a", CacheEntry.record 7 "b" true none] ∧
    (fetchTodos
        (mountState (Stored.entries [CacheEntry.str "a", CacheEntry.record 7 "b" true none]))
        FetchOutcome.networkError).todos
      = [{ id := 1, title := "a", completed := false, priority := .medium },
         { id := 7, title := "b", completed := true, priority := .medium }] := by
  refine ⟨rfl, rfl, ?_⟩
  rw [c1_fetch_failure_normalizes_cache
    (mountState (Stored.entries [CacheEntry.str "a", CacheEntry.record 7 "b" true none]))
    FetchOutcome.networkError
    [CacheEntry.str "a", CacheEntry.record 7 "b" true none] rfl rfl]
  decide

/-- C2: after every mutation — add on both branches, toggle-completion,
delete — the value written to the local cache deserialises to exactly the
new in-memory list, same elements in the same order. -/
theorem c2_cache_mirrors_state (s : AppState) (task : String) (p : Priority)
    (o : PostOutcome) (id₁ id₂ : Int) :
    decodeStored ((addTodo s task p o).2.cache) = some (addTodo s task p o).2.todos ∧
    decodeStored ((toggleTodoCompletion s id₁).cache) = some (toggleTodoCompletion s id₁).todos ∧
    decodeStored ((deleteTodo s id₂).cache) = some (deleteTodo s id₂).todos := by
  refine ⟨?_, ?_, ?_⟩
  · cases o <;> simp [addTodo, decodeStored_writeCache]
  · simp [toggleTodoCompletion, decodeStored_writeCache]
  · simp [deleteTodo, decodeStored_writeCache]

/-- C3: when the remote create call fails, `addTodo` appends the
synthetic record `{id: n+1, title: task, completed: false, priority}`
(`n` the current length), writes the full updated list to the cache, sets
a non-empty warning, and returns failure. -/
theorem c3_add_failure_synthesizes_record (s : AppState) (task : String) (p : Priority) :
    (addTodo s task p .failure).1 = false ∧
    (addTodo s task p .failure).2.todos =
      s.todos ++
        [{ id := (s.todos.length : Int) + 1, title := task, completed := false, priority := p }] ∧
    (addTodo s task p .failure).2.cache = writeCache (addTodo s task p .failure).2.todos ∧
    (addTodo s task p .failure).2.error = some addErrorMsg ∧ addErrorMsg ≠ "" :=
  ⟨rfl, rfl, rfl, rfl, by decide⟩

/-- C4: a successful remote read with a `data` array replaces the list
with the server array, each element's missing priority defaulted to
`"medium"`, clears the warning, and leaves the cache untouched. -/
theorem c4_fetch_success_normalizes_server (s : AppState) (xs : List ServerTodo) :
    fetchTodos s (.ok (.arr xs)) =
      { s with
          todos := xs.map fun t =>
            { id := t.id, title := t.title, completed := t.completed,
              priority := t.priority.getD .medium },
          error := none } :=
  rfl

/-- C5: the priority-sorted view is descending in priority rank
(high 3 > medium 2 > low 1), tasks of equal priority keep their relative
order from the filtered input, and the input [A(high), B(medium), C(high)]
sorts to [A(high), C(high), B(medium)]. -/
theorem c5_sort_descending_stable (f : ViewFilter) (todos : List Todo) :
    (sortedTodos f todos).Pairwise
      (fun a b => priorityOrder b.priority ≤ priorityOrder a.priority) ∧
    (∀ p : Priority,
      (sortedTodos f todos).filter (fun t => decide (t.priority = p)) =
        (filteredTodos f todos).filter (fun t => decide (t.priority = p))) ∧
    sortedTodos .all
        [{ id := 1, title := "A", completed := false, priority := .high },
         { id := 2, title := "B", completed := false, priority := .medium },
         { id := 3, title := "C", completed := false, priority := .high }] =
      [{ id := 1, title := "A", completed := false, priority := .high },
       { id := 3, title := "C", completed := false, priority := .high },
       { id := 2, title := "B", completed := false, priority := .medium }] := by
  refine ⟨?_, ?_, ?_⟩
  · have h := @List.sorted_mergeSort Todo todoLe todoLe_trans todoLe_total (filteredTodos f todos)
    exact h.imp fun hab => by simpa [todoLe] using hab
  · intro p
    have hmemp : ∀ t ∈ (filteredTodos f todos).filter (fun t => decide (t.priority = p)),
        t.priority = p := by
      intro t ht
      simpa using (List.mem_filter.mp ht).2
    have hpw : ((filteredTodos f todos).filter (fun t => decide (t.priority = p))).Pairwise
        (fun a b => todoLe a b = true) := by
      apply List.pairwise_of_forall_mem_list
      intro a ha b hb
      simp [todoLe, hmemp a ha, hmemp b hb]
    have hsub := List.filter_sublist (p := fun t => decide (t.priority = p)) (filteredTodos f todos)
    have h1 := @List.sublist_mergeSort Todo todoLe (filteredTodos f todos)
      todoLe_trans todoLe_total _ hpw hsub
    have h2 : ((filteredTodos f todos).filter (fun t => decide (t.priority = p))).filter
        (fun t => decide (t.priority = p)) =
        (filteredTodos f todos).filter (fun t => decide (t.priority = p)) := by
      rw [List.filter_eq_self]
      intro a ha
      simpa using hmemp a ha
    have h3 : ((filteredTodos f todos).filter (fun t => decide (t.priority = p))).Sublist
        (((filteredTodos f todos).mergeSort todoLe).filter (fun t => decide (t.priority = p))) := by
      rw [← h2]
      exact h1.filter _
    have h4 := ((List.mergeSort_perm (filteredTodos f todos) todoLe).filter
      (fun t => decide (t.priority = p))).length_eq
    exact (h3.eq_of_length h4.symm).symm
  · simp [sortedTodos, filteredTodos, List.mergeSort, List.merge, todoLe, priorityOrder]

/-- C6: toggling the same id twice leaves every task's `completed` value
as it was originally. -/
theorem c6_toggle_involutive (s : AppState) (id : Int) :
    ((toggleTodoCompletion (toggleTodoCompletion s id) id).todos).map Todo.completed =
      s.todos.map Todo.completed := by
  simp only [toggleTodoCompletion, List.map_map]
  apply List.map_congr_left
  intro a _
  by_cases h : a.id = id <;> simp [h, Function.comp]

end TodoApp

namespace TodoApp

/-- C7, counterexample: the claim says the add operation is invoked with
the *trimmed* title, but on input `" a"` (which trims to the non-empty
`"a"`) the handler passes the untrimmed `" a"` to `addTodo`. -/
theorem c7_counterexample :
    jsTrim " a" ≠ "" ∧
    (handleSubmit (mountState .absent) " a" .medium .failure).1 ≠ some (jsTrim " a") := by
  decide

/-- C7, amended: if the input trims to empty, nothing happens (no add,
state unchanged); otherwise `addTodo` is invoked with the original,
untrimmed input text as the title and the state becomes the add result. -/
theorem c7_submit_trims_guard_only (s : AppState) (input : String) (p : Priority)
    (o : PostOutcome) :
    (jsTrim input = "" → handleSubmit s input p o = (none, s)) ∧
    (jsTrim input ≠ "" → handleSubmit s input p o = (some input, (addTodo s input p o).2)) := by
  constructor
  · intro h
    simp [handleSubmit, h]
  · intro h
    simp [handleSubmit, h]

/-- Closed instance of `c7_submit_trims_guard_only`: a whitespace-only
input leaves the state alone; `" a"` is handed to `addTodo` untrimmed. -/
theorem c7_witness :
    handleSubmit (mountState .absent) "  " .medium .failure = (none, mountState .absent) ∧
    (handleSubmit (mountState .absent) " a" .medium .failure) =
      (some " a", (addTodo (mountState .absent) " a" .medium .failure).2) :=
  ⟨(c7_submit_trims_guard_only (mountState .absent) "  " .medium .failure).1 (by decide),
   (c7_submit_trims_guard_only (mountState .absent) " a" .medium .failure).2 (by decide)⟩

/-- C8: a failed remote read with the cache key absent, or present but
not parsable as JSON, leaves the displayed list empty (the loader runs at
mount, where the list starts empty) and sets a non-empty warning. -/
theorem c8_fetch_failure_empty_cache (c : Stored) (o : FetchOutcome)
    (hfail : o.isOk = false) (hc : c = .absent ∨ c = .malformed) :
    (fetchTodos (mountState c) o).todos = [] ∧
    (fetchTodos (mountState c) o).error = some fetchErrorMsg ∧ fetchErrorMsg ≠ "" := by
  have hmsg : fetchErrorMsg ≠ "" := by decide
  rcases hc with rfl | rfl <;> cases o <;>
    simp_all [fetchTodos, mountState, FetchOutcome.isOk]

/-- Closed instance of `c8_fetch_failure_empty_cache`: a network error
with no cached value. -/
theorem c8_witness :
    FetchOutcome.networkError.isOk = false ∧
    (Stored.absent = Stored.absent ∨ Stored.absent = Stored.malformed) ∧
    (fetchTodos (mountState .absent) .networkError).todos = [] ∧
    (fetchTodos (mountState .absent) .networkError).error = some fetchErrorMsg ∧
    fetchErrorMsg ≠ "" :=
  ⟨rfl, Or.inl rfl, c8_fetch_failure_empty_cache .absent .networkError rfl (Or.inl rfl)⟩

/-- C9: two add invocations with the same title and different priorities
send byte-identical POST requests, whose body is the JSON serialisation
of the object holding only the `task` field; the priority never appears
in the transmitted data. -/
theorem c9_priority_never_sent (t : String) (p₁ p₂ : Priority) :
    addTodoRequest t p₁ = addTodoRequest t p₂ ∧
    (addTodoRequest t p₁).body = stringifyTaskObj t :=
  ⟨rfl, rfl⟩

/-- C10: a 2xx response whose parsed body lacks a (truthy) `data` field
is treated as success: the list becomes empty, the warning is cleared,
and the cache is neither consulted nor modified. -/
theorem c10_missing_data_is_success (s : AppState) :
    fetchTodos s (.ok .missing) = { s with todos := [], error := none } :=
  rfl

end TodoApp
